import Mathlib

/-!
Verification of the interval_learn_bot core: the card data model, the store's
transition operations, the two spaced-repetition interval engines (the
ease-based four-grade variant and the ladder two-grade variant), the review
scheduler's dispatch and recovery passes, and the grading callback handler.
Every definition is a shallow embedding of the corresponding TypeScript
function; timestamps are modelled as integer milliseconds (ISO-8601 strings
compare exactly like the instants they denote), and JavaScript floating-point
arithmetic on the easiness factor is modelled over the rationals with explicit
decimal rounding.
-/

/-- Timestamps: integer count of milliseconds, standing in for ISO-8601 strings
(string comparison on ISO timestamps agrees with instant order). -/
abbrev Time := Int

/-- Milliseconds in one day, the unit dayjs adds for day-based offsets. -/
def dayMs : Int := 86400000

/-- Milliseconds in one hour, the retry backoff used after delivery failures. -/
def hourMs : Int := 3600000

/-- JavaScript Math.round: floor of the argument plus one half. -/
def roundJs (q : ℚ) : ℤ := ⌊q + 1 / 2⌋

/-- Number.prototype.toFixed applied with two digits: round to the nearest
hundredth, ties taken upward (the larger candidate, per the ECMA algorithm for
the nonnegative values this code feeds it). -/
def toFixed2 (q : ℚ) : ℚ := ((⌊q * 100 + 1 / 2⌋ : ℤ) : ℚ) / 100

/-- Card lifecycle states, from db.ts CardStatus. -/
inductive CardStatus
  | pending
  | learning
  | awaiting_grade
  | archived
deriving DecidableEq, Repr

/-- Dispatch reasons recorded on each notification, from db.ts. -/
inductive NotificationReason
  | scheduled
  | manual_now
  | manual_override
deriving DecidableEq, Repr

/-- Card row, from db.ts CardRecord (canonical variant). -/
structure CardRecord where
  id : String
  userId : String
  sourceChatId : String
  sourceMessageId : Int
  sourceMessageIds : Option (List Int)
  contentType : String
  contentPreview : Option String
  contentFileId : Option String
  contentFileUniqueId : Option String
  status : CardStatus
  repetition : Nat
  interval : Int
  easiness : ℚ
  nextReviewAt : Option Time
  lastReviewedAt : Option Time
  lastGrade : Option Int
  pendingChannelId : Option String
  pendingChannelMessageId : Option Int
  baseChannelMessageId : Option Int
  awaitingGradeSince : Option Time
  lastNotificationAt : Option Time
  lastNotificationReason : Option NotificationReason
  lastNotificationMessageId : Option Int
  createdAt : Time
  updatedAt : Time
deriving DecidableEq, Repr

/-- Input of CardStore.markAwaitingGrade, from db.ts AwaitingGradeInput. -/
structure AwaitingGradeInput where
  cardId : String
  channelId : String
  channelMessageId : Int
  pendingSince : Time
deriving DecidableEq, Repr

/-- Input of CardStore.saveReviewResult, from db.ts ReviewResultInput. -/
structure ReviewResultInput where
  cardId : String
  grade : Int
  nextReviewAt : Time
  repetition : Nat
  interval : Int
  easiness : ℚ
  reviewedAt : Time
deriving DecidableEq, Repr

/-- Input of CardStore.recordNotification, from db.ts RecordNotificationInput. -/
structure RecordNotificationInput where
  cardId : String
  messageId : Int
  reason : NotificationReason
  sentAt : Time
deriving DecidableEq, Repr

/-- CardStore.markAwaitingGrade: the UPDATE that moves a card into
awaiting_grade, setting both pending-message fields and the awaiting
timestamp. -/
def CardStore.markAwaitingGrade (input : AwaitingGradeInput) (c : CardRecord) : CardRecord :=
  { c with
    status := .awaiting_grade
    pendingChannelId := some input.channelId
    pendingChannelMessageId := some input.channelMessageId
    awaitingGradeSince := some input.pendingSince
    updatedAt := input.pendingSince }

/-- CardStore.saveReviewResult: the UPDATE that records a grade outcome and
returns the card to learning with the pending fields cleared. -/
def CardStore.saveReviewResult (input : ReviewResultInput) (c : CardRecord) : CardRecord :=
  { c with
    status := .learning
    lastReviewedAt := some input.reviewedAt
    lastGrade := some input.grade
    repetition := input.repetition
    interval := input.interval
    easiness := input.easiness
    nextReviewAt := some input.nextReviewAt
    pendingChannelId := none
    pendingChannelMessageId := none
    awaitingGradeSince := none
    updatedAt := input.reviewedAt }

/-- CardStore.rescheduleCard: the UPDATE used after a delivery failure, putting
the card back into learning with a fresh nextReviewAt and no pending fields. -/
def CardStore.rescheduleCard (nextReviewAt : Time) (now : Time) (c : CardRecord) : CardRecord :=
  { c with
    status := .learning
    nextReviewAt := some nextReviewAt
    pendingChannelId := none
    pendingChannelMessageId := none
    awaitingGradeSince := none
    updatedAt := now }

/-- CardStore.recordNotification: the UPDATE of the last-notification audit
fields on the card row. -/
def CardStore.recordNotification (input : RecordNotificationInput) (c : CardRecord) : CardRecord :=
  { c with
    lastNotificationAt := some input.sentAt
    lastNotificationReason := some input.reason
    lastNotificationMessageId := some input.messageId }

/-- CardStore.setBaseChannelMessage: the UPDATE of the reply-anchor message id. -/
def CardStore.setBaseChannelMessage (messageId : Option Int) (c : CardRecord) : CardRecord :=
  { c with baseChannelMessageId := messageId }

/-- CardStore.clearAwaitingGrade: the UPDATE that drops a card out of
awaiting_grade back to learning, clearing the pending fields. -/
def CardStore.clearAwaitingGrade (now : Time) (c : CardRecord) : CardRecord :=
  { c with
    status := .learning
    pendingChannelId := none
    pendingChannelMessageId := none
    awaitingGradeSince := none
    updatedAt := now }

namespace Ease

/-- Grade vocabulary of the ease-based (four-grade) engine variant. -/
inductive GradeKey
  | again
  | hard
  | good
  | easy
deriving DecidableEq, Repr

/-- gradeToQuality from the ease-based spacedRepetition.ts. -/
def gradeToQuality : GradeKey → Int
  | .again => 0
  | .hard => 3
  | .good => 4
  | .easy => 5

/-- clampEasiness from the ease-based spacedRepetition.ts: two-decimal rounding
then a floor clamp at 1.3. -/
def clampEasiness (value : ℚ) : ℚ := max (13 / 10) (toFixed2 value)

/-- Result of the ease-based computeReview. -/
structure ReviewComputationResult where
  quality : Int
  easiness : ℚ
  interval : Int
  repetition : Nat
  nextReviewAt : Time
deriving DecidableEq, Repr

/-- computeReview from the ease-based spacedRepetition.ts (SM-2 style). -/
def computeReview (now : Time) (card : CardRecord) (grade : GradeKey) :
    ReviewComputationResult :=
  let quality := gradeToQuality grade
  let easiness0 := card.easiness
  let repetition0 := card.repetition
  let interval0 := card.interval
  if quality < 3 then
    { quality := quality
      easiness := easiness0
      interval := 1
      repetition := 0
      nextReviewAt := now + 1 * dayMs }
  else
    let repetition := repetition0 + 1
    let interval : Int :=
      if repetition = 1 then 1
      else if repetition = 2 then 6
      else max 1 (roundJs ((interval0 : ℚ) * easiness0))
    let adjustment : ℚ :=
      1 / 10 - ((5 - quality : Int) : ℚ) * (2 / 25 + ((5 - quality : Int) : ℚ) * (1 / 50))
    let easiness := clampEasiness (easiness0 + adjustment)
    { quality := quality
      easiness := easiness
      interval := interval
      repetition := repetition
      nextReviewAt := now + interval * dayMs }

end Ease

namespace Ladder

/-- Reminder modes of the ladder engine variant (sm2 is the adaptive mode). -/
inductive ReminderMode
  | sm2
  | daily
  | weekly
deriving DecidableEq, Repr

/-- Grade vocabulary of the ladder (two-grade) engine variant. -/
inductive GradeKey
  | again
  | ok
deriving DecidableEq, Repr

/-- Projection of the ladder-variant card record to the fields its
computeReview reads: the reminder mode and the repetition counter. -/
structure CardRecord where
  reminderMode : ReminderMode
  repetition : Nat
deriving DecidableEq, Repr

/-- Result of the ladder computeReview (this variant exposes no interval
field). -/
structure ReviewComputationResult where
  repetition : Nat
  nextReviewAt : Time
deriving DecidableEq, Repr

/-- reviewIntervalLadder from the ladder spacedRepetition.ts. -/
def reviewIntervalLadder : List Int := [1, 3, 7, 14, 30]

/-- clampInterval from the ladder spacedRepetition.ts: clamp into
[1, max(1, configured maximum in days)]. -/
def clampInterval (maxIntervalDays : Int) (interval : Int) : Int :=
  min (max 1 interval) (max 1 maxIntervalDays)

/-- intervalFromRepetition from the ladder spacedRepetition.ts: index the
ladder list at repetition minus one, saturating at both ends. -/
def intervalFromRepetition (repetition : Nat) : Int :=
  let index :=
    (min (max ((repetition : Int) - 1) 0) ((reviewIntervalLadder.length : Int) - 1)).toNat
  reviewIntervalLadder.getD index 1

/-- Interval in days chosen by the ladder computeReview in adaptive (sm2) mode:
a let-extraction of the adaptive branch of computeReview, after clamping. -/
def gradeInterval (maxIntervalDays : Int) (card : CardRecord) (grade : GradeKey) : Int :=
  match grade with
  | .again => clampInterval maxIntervalDays 1
  | .ok => clampInterval maxIntervalDays (intervalFromRepetition (card.repetition + 1))

/-- computeReview from the ladder spacedRepetition.ts. -/
def computeReview (maxIntervalDays : Int) (now : Time) (card : CardRecord) (grade : GradeKey) :
    ReviewComputationResult :=
  if card.reminderMode = .daily ∨ card.reminderMode = .weekly then
    let interval : Int := if card.reminderMode = .daily then 1 else 7
    { repetition := card.repetition + 1, nextReviewAt := now + interval * dayMs }
  else
    let repetition := if grade = .again then 0 else card.repetition + 1
    let interval := gradeInterval maxIntervalDays card grade
    { repetition := repetition, nextReviewAt := now + interval * dayMs }

end Ladder

/-- Selection predicate of CardStore.listExpiredAwaitingCards: status is
awaiting_grade and the awaiting timestamp is set and at most the cutoff. -/
def isExpiredAwaiting (cutoff : Time) (c : CardRecord) : Bool :=
  if c.status = .awaiting_grade then
    match c.awaitingGradeSince with
    | some t => decide (t ≤ cutoff)
    | none => false
  else false

/-- Treatment of one expired card inside ReviewScheduler.checkOverdueGrades:
compute the review for the auto-applied hard grade and persist it through
CardStore.saveReviewResult. -/
def autoGradeOverdueCard (now : Time) (c : CardRecord) : CardRecord :=
  let result := Ease.computeReview now c .hard
  CardStore.saveReviewResult
    { cardId := c.id
      grade := result.quality
      nextReviewAt := result.nextReviewAt
      repetition := result.repetition
      interval := result.interval
      easiness := result.easiness
      reviewedAt := now } c

/-- ReviewScheduler.checkOverdueGrades: select the cards stuck awaiting a
grade since before the 24-hour cutoff and auto-grade each of them hard. -/
def checkOverdueGrades (now : Time) (cards : List CardRecord) : List CardRecord :=
  cards.map fun c => if isExpiredAwaiting (now - dayMs) c then autoGradeOverdueCard now c else c

namespace Ladder

/-- Repetition counter reached after a number of consecutive passing (ok)
grades in adaptive (sm2) mode, feeding each computeReview result back in. -/
def repAfterOks (maxIntervalDays : Int) (now : Time) (r : Nat) : Nat → Nat
  | 0 => r
  | k + 1 =>
    (computeReview maxIntervalDays now
      { reminderMode := .sm2, repetition := repAfterOks maxIntervalDays now r k } .ok).repetition

/-- Interval produced by the next passing (ok) grade after a number of
consecutive passing grades in adaptive mode. -/
def okIntervalAt (maxIntervalDays : Int) (now : Time) (r k : Nat) : Int :=
  gradeInterval maxIntervalDays
    { reminderMode := .sm2, repetition := repAfterOks maxIntervalDays now r k } .ok
end Ladder

/-- Sample card used to instantiate hypotheses of the engine theorems. -/
def sampleCard : CardRecord :=
  { id := "card-1"
    userId := "42"
    sourceChatId := "100"
    sourceMessageId := 10
    sourceMessageIds := none
    contentType := "text"
    contentPreview := none
    contentFileId := none
    contentFileUniqueId := none
    status := .learning
    repetition := 1
    interval := 1
    easiness := 5 / 2
    nextReviewAt := some 0
    lastReviewedAt := none
    lastGrade := none
    pendingChannelId := none
    pendingChannelMessageId := none
    baseChannelMessageId := none
    awaitingGradeSince := none
    lastNotificationAt := none
    lastNotificationReason := none
    lastNotificationMessageId := none
    createdAt := 0
    updatedAt := 0 }

/-- Sample card sitting in awaiting_grade since instant 0, used to
instantiate the recovery-pass theorems. -/
def expiredCard : CardRecord :=
  { sampleCard with
    status := .awaiting_grade
    awaitingGradeSince := some 0
    pendingChannelId := some "500"
    pendingChannelMessageId := some 77 }

/-- User row projection returned by CardStore.getUser. -/
structure UserRecord where
  approved : Bool
  notificationChatId : Option String
deriving DecidableEq, Repr

/-- JavaScript truthiness of a nullable number (null and 0 are falsy). -/
def jsTruthyNum : Option Int → Bool
  | none => false
  | some n => decide (n ≠ 0)

/-- JavaScript truthiness of a nullable string (null and the empty string are
falsy). -/
def jsTruthyStr : Option String → Bool
  | none => false
  | some s => decide (s ≠ "")

/-- JavaScript a || b on a nullable string and a fallback. -/
def jsOrStr (a : Option String) (b : String) : String :=
  match a with
  | some s => if s = "" then b else s
  | none => b

/-- Whether the second character list starts with the first. -/
def charsBeg : List Char → List Char → Bool
  | [], _ => true
  | _ :: _, [] => false
  | a :: pr, b :: sr => a == b && charsBeg pr sr

/-- Whether the second character list contains the first as a contiguous run. -/
def charsHas (pat : List Char) : List Char → Bool
  | [] => charsBeg pat []
  | b :: sr => charsBeg pat (b :: sr) || charsHas pat sr

/-- Case-insensitive substring test: the effect of one literal alternative of
the reviewScheduler regex (an ASCII phrase under the i flag) on a message. -/
def containsPat (s pat : String) : Bool := charsHas pat.data (s.data.map Char.toLower)

/-- ReviewScheduler.isMissingReplyTarget: an error whose nonempty message
matches one of the three reply-target-missing phrases, case-insensitively. -/
def isMissingReplyTarget (msg : String) : Bool :=
  if msg = "" then false
  else
    containsPat msg "reply message not found" ||
    containsPat msg "message to reply not found" ||
    containsPat msg "replied message not found"

/-- Deduplicated, numerically sorted source ids, the effect of
Array.from(new Set(ids)).sort((a, b) => a - b). -/
def uniqueSorted (l : List Int) : List Int := (l.dedup).insertionSort (· ≤ ·)

/-- Reminder message returned by the messaging gateway for the lightweight
reply path: its id and whether the reply anchor was actually attached. -/
structure ReminderMessage where
  messageId : Int
  chatId : Int
  hasReplyToMessage : Bool
deriving DecidableEq, Repr

deriving instance DecidableEq for Except

/-- Outcomes of the four messaging-gateway calls a single dispatch can make;
an error value carries the gateway's error message. -/
structure TelegramEnv where
  copyMessageResult : Except String Int
  copyMessagesResult : Except String (List Int)
  promptSendResult : Except String Int
  reminderSendResult : Except String ReminderMessage
deriving DecidableEq, Repr

/-- Store mutations issued during a dispatch, each carrying the card row as it
stood when the mutation ran. -/
inductive StoreEvent
  | clearAwaiting (pre : CardRecord)
  | setBase (pre : CardRecord) (messageId : Option Int)
  | markAwaiting (pre : CardRecord) (input : AwaitingGradeInput)
  | notify (pre : CardRecord) (input : RecordNotificationInput)
  | reschedule (pre : CardRecord) (retryAt : Time)
deriving DecidableEq, Repr

/-- copyOriginal from ReviewScheduler.sendCardToChannel: copy the source
content (a whole media group when the card has several source ids, the single
source message otherwise), record the last copied id as the new reply anchor,
and return the id of the message carrying the grading control. -/
def copyOriginal (env : TelegramEnv) (card : CardRecord) :
    CardRecord × List StoreEvent × Except String Int :=
  let sourceIds := card.sourceMessageIds.getD []
  let uniqueIds := uniqueSorted sourceIds
  if 1 < uniqueIds.length then
    match env.copyMessagesResult with
    | .error e => (card, [], .error e)
    | .ok copies =>
      match copies.getLast? with
      | none => (card, [], .error ("Не удалось скопировать медиагруппу карточки " ++ card.id))
      | some lastCopiedId =>
        if lastCopiedId = 0 then
          (card, [], .error ("Не удалось скопировать медиагруппу карточки " ++ card.id))
        else
          let card1 := CardStore.setBaseChannelMessage (some lastCopiedId) card
          match env.promptSendResult with
          | .error e => (card1, [.setBase card (some lastCopiedId)], .error e)
          | .ok promptId => (card1, [.setBase card (some lastCopiedId)], .ok promptId)
  else
    match env.copyMessageResult with
    | .error e => (card, [], .error e)
    | .ok mid =>
      (CardStore.setBaseChannelMessage (some mid) card, [.setBase card (some mid)], .ok mid)

/-- Pre-dispatch cleanup at the top of ReviewScheduler.sendCardToChannel: when
both pending-message fields are truthy, clear the awaiting state (and the
subsequent re-fetch returns the cleared row). -/
def dispatchCleanup (now : Time) (c : CardRecord) : CardRecord :=
  if jsTruthyStr c.pendingChannelId && jsTruthyNum c.pendingChannelMessageId
  then CardStore.clearAwaitingGrade now c else c

/-- Body of the try block of ReviewScheduler.sendCardToChannel: pre-dispatch
cleanup of a stale pending delivery, then either a first-ever copy or the
lightweight reminder with its two fallbacks to a full re-copy (reply anchor
silently dropped, or the gateway reporting the reply target missing). -/
def dispatchBody (env : TelegramEnv) (now : Time) (card0 : CardRecord) :
    CardRecord × List StoreEvent × Except String Int :=
  let cleaned := jsTruthyStr card0.pendingChannelId && jsTruthyNum card0.pendingChannelMessageId
  let card1 := dispatchCleanup now card0
  let trace1 : List StoreEvent := if cleaned then [.clearAwaiting card0] else []
  let step :=
    if !(jsTruthyNum card1.baseChannelMessageId) then
      copyOriginal env card1
    else
      match env.reminderSendResult with
      | .ok reminder =>
        if !reminder.hasReplyToMessage then
          copyOriginal env card1
        else
          (card1, [], .ok reminder.messageId)
      | .error e =>
        if isMissingReplyTarget e then
          let card1b := CardStore.setBaseChannelMessage none card1
          let inner := copyOriginal env card1b
          (inner.1, .setBase card1 none :: inner.2.1, inner.2.2)
        else
          (card1, [], .error e)
  (step.1, trace1 ++ step.2.1, step.2.2)

/-- ReviewScheduler.sendCardToChannel: run the dispatch body; on success mark
the card awaiting a grade on the delivered message and record the
notification, on any uncaught error reschedule the card one hour out. The
returned trace lists every store mutation in order; the Except value
reproduces whether the catch branch ran. -/
def sendCardToChannel (env : TelegramEnv) (now : Time) (user : Option UserRecord)
    (reason : NotificationReason) (card : CardRecord) :
    CardRecord × List StoreEvent × Except String Int :=
  let targetChatId := jsOrStr (user.bind fun u => u.notificationChatId) card.userId
  let body := dispatchBody env now card
  match body.2.2 with
  | .ok mid =>
    let card2 := body.1
    let input : AwaitingGradeInput :=
      { cardId := card2.id, channelId := targetChatId, channelMessageId := mid,
        pendingSince := now }
    let card3 := CardStore.markAwaitingGrade input card2
    let ninput : RecordNotificationInput :=
      { cardId := card3.id, messageId := mid, reason := reason, sentAt := now }
    let card4 := CardStore.recordNotification ninput card3
    (card4, body.2.1 ++ [.markAwaiting card2 input, .notify card3 ninput], .ok mid)
  | .error e =>
    let retryAt := now + hourMs
    (CardStore.rescheduleCard retryAt now body.1, body.2.1 ++ [.reschedule body.1 retryAt],
      .error e)

/-- ReviewScheduler.triggerImmediate: reject a pending card outright; clean up
an awaiting_grade card first; then dispatch with reason manual_now. -/
def triggerImmediate (env : TelegramEnv) (now : Time) (user : Option UserRecord)
    (card : CardRecord) : CardRecord × List StoreEvent × Except String Int :=
  if card.status = .pending then
    (card, [], .error "Карточка ещё не активирована")
  else if card.status = .awaiting_grade then
    let card1 := CardStore.clearAwaitingGrade now card
    let r := sendCardToChannel env now user .manual_now card1
    (r.1, .clearAwaiting card :: r.2.1, r.2.2)
  else
    sendCardToChannel env now user .manual_now card

/-- Grade button handler from bot.ts: look the card up through
CardStore.findAwaitingCard (which only matches status awaiting_grade); when it
misses, answer and change nothing; otherwise compute the review and persist it
through CardStore.saveReviewResult. -/
def handleGradeAction (now : Time) (card : CardRecord) (grade : Ease.GradeKey) :
    CardRecord × Option Ease.ReviewComputationResult :=
  if card.status = .awaiting_grade then
    let result := Ease.computeReview now card grade
    (CardStore.saveReviewResult
      { cardId := card.id
        grade := result.quality
        nextReviewAt := result.nextReviewAt
        repetition := result.repetition
        interval := result.interval
        easiness := result.easiness
        reviewedAt := now } card, some result)
  else
    (card, none)

/-- Store invariant tying the two pending-message fields together: whenever a
pending message id is recorded, it is a real (nonzero) message id and the
pending channel id is a nonempty string. Every store write that sets one
pending field sets both, so all reachable card rows satisfy this. -/
def pendingLinked (c : CardRecord) : Prop :=
  ∀ m, c.pendingChannelMessageId = some m →
    m ≠ 0 ∧ ∃ ch, c.pendingChannelId = some ch ∧ ch ≠ ""

/-- Reply-anchor id that a fallback full re-copy would record, as determined
by the gateway outcomes: the last copied id of the media group when the card
spans several source messages, the single copied message id otherwise. -/
def newCopyBase (env : TelegramEnv) (card : CardRecord) : Option Int :=
  if 1 < (uniqueSorted (card.sourceMessageIds.getD [])).length then
    match env.copyMessagesResult with
    | .ok copies =>
      match copies.getLast? with
      | some lastId => if lastId = 0 then none else some lastId
      | none => none
    | .error _ => none
  else
    match env.copyMessageResult with
    | .ok mid => some mid
    | .error _ => none

/-- Gateway environment in which every call fails with a non-retryable error. -/
def failEnv : TelegramEnv :=
  { copyMessageResult := .error "network down"
    copyMessagesResult := .error "network down"
    promptSendResult := .error "network down"
    reminderSendResult := .error "network down" }

/-- Gateway environment in which the reminder send reports the reply target
missing while the copy calls succeed. -/
def okEnv : TelegramEnv :=
  { copyMessageResult := .ok 901
    copyMessagesResult := .ok [901]
    promptSendResult := .ok 902
    reminderSendResult := .error "Bad Request: reply message not found" }

/-- Card carrying a recorded reply anchor, used to exercise the reminder
path. -/
def anchoredCard : CardRecord := { sampleCard with baseChannelMessageId := some 300 }

-- Helper lemmas and claim theorems follow.

namespace Ladder

theorem repAfterOks_eq (maxIntervalDays : Int) (now : Time) (r k : Nat) :
    repAfterOks maxIntervalDays now r k = r + k := by
  induction k with
  | zero => rfl
  | succ k ih =>
    simp [repAfterOks, computeReview, ih]
    omega

theorem intervalFromRepetition_closed (r : Nat) :
    intervalFromRepetition r =
      if r ≤ 1 then 1 else if r = 2 then 3 else if r = 3 then 7 else if r = 4 then 14 else 30 := by
  match r with
  | 0 => decide
  | 1 => decide
  | 2 => decide
  | 3 => decide
  | 4 => decide
  | (n + 5) =>
    have h4 :
        (min (max (((n + 5 : Nat) : Int) - 1) 0) ((reviewIntervalLadder.length : Int) - 1)).toNat
          = 4 := by
      simp [reviewIntervalLadder]
      omega
    rw [intervalFromRepetition]
    rw [if_neg (by omega), if_neg (by omega), if_neg (by omega), if_neg (by omega)]
    simp only [h4]
    rfl

theorem intervalFromRepetition_mono {a b : Nat} (h : a ≤ b) :
    intervalFromRepetition a ≤ intervalFromRepetition b := by
  rw [intervalFromRepetition_closed, intervalFromRepetition_closed]
  split_ifs <;> omega

theorem clampInterval_mono (maxIntervalDays : Int) {a b : Int} (h : a ≤ b) :
    clampInterval maxIntervalDays a ≤ clampInterval maxIntervalDays b := by
  simp only [clampInterval, min_def, max_def]
  split_ifs <;> omega

theorem clampInterval_le (maxIntervalDays : Int) (h : 1 ≤ maxIntervalDays) (i : Int) :
    clampInterval maxIntervalDays i ≤ maxIntervalDays := by
  simp only [clampInterval, min_def, max_def]
  split_ifs <;> omega

end Ladder

theorem toFixed2_eq_self {q : ℚ} (h : (q * 100).den = 1) : toFixed2 q = q := by
  have hq : (((q * 100).num : ℤ) : ℚ) = q * 100 := by
    exact_mod_cast (Rat.den_eq_one_iff _).mp h
  have hfloor : ⌊q * 100 + 1 / 2⌋ = (q * 100).num := by
    rw [← hq, add_comm, Int.floor_add_int]
    norm_num
  rw [toFixed2, hfloor, hq]
  field_simp

/-- C3: in adaptive mode, a failing grade (again in either vocabulary, the
only grade of quality below 3) resets repetition to 0 and the interval to one
day, for every prior repetition, interval and easiness. -/
theorem failing_grade_resets_progress :
    (∀ (now : Time) (card : CardRecord) (grade : Ease.GradeKey),
        Ease.gradeToQuality grade < 3 →
        (Ease.computeReview now card grade).repetition = 0 ∧
        (Ease.computeReview now card grade).interval = 1) ∧
    (∀ (maxIntervalDays : Int) (now : Time) (card : Ladder.CardRecord),
        card.reminderMode = .sm2 →
        (Ladder.computeReview maxIntervalDays now card .again).repetition = 0 ∧
        Ladder.gradeInterval maxIntervalDays card .again = 1 ∧
        (Ladder.computeReview maxIntervalDays now card .again).nextReviewAt
          = now + 1 * dayMs) := by
  constructor
  · intro now card grade h
    cases grade <;> simp [Ease.gradeToQuality] at h
    simp [Ease.computeReview, Ease.gradeToQuality]
  · intro maxD now card h
    have h1 : Ladder.gradeInterval maxD card .again = 1 := by
      simp only [Ladder.gradeInterval, Ladder.clampInterval, min_def, max_def]
      split_ifs <;> omega
    refine ⟨?_, h1, ?_⟩ <;> simp [Ladder.computeReview, h, h1]

/-- Witness for the failing-grade theorem at the grade again and a concrete
card in each vocabulary. -/
theorem failing_grade_resets_progress_witness :
    Ease.gradeToQuality .again < 3 ∧
    ((Ease.computeReview 0 sampleCard .again).repetition = 0 ∧
      (Ease.computeReview 0 sampleCard .again).interval = 1) ∧
    (({ reminderMode := .sm2, repetition := 3 } : Ladder.CardRecord).reminderMode = .sm2 ∧
      ((Ladder.computeReview 45 0 { reminderMode := .sm2, repetition := 3 } .again).repetition = 0 ∧
        Ladder.gradeInterval 45 { reminderMode := .sm2, repetition := 3 } .again = 1 ∧
        (Ladder.computeReview 45 0 { reminderMode := .sm2, repetition := 3 } .again).nextReviewAt
          = 0 + 1 * dayMs)) :=
  ⟨by decide, failing_grade_resets_progress.1 0 sampleCard .again (by decide),
    rfl, failing_grade_resets_progress.2 45 0 { reminderMode := .sm2, repetition := 3 } rfl⟩

/-- C4: a card with repetition 1, interval 1 and easiness 2.5 graded good in
the ease-based adaptive engine moves to repetition 2 with a six-day interval. -/
theorem good_grade_second_repetition_interval_six :
    ∀ (now : Time) (card : CardRecord),
      card.repetition = 1 → card.interval = 1 → card.easiness = 5 / 2 →
      (Ease.computeReview now card .good).repetition = 2 ∧
      (Ease.computeReview now card .good).interval = 6 := by
  intro now card h1 _h2 _h3
  simp [Ease.computeReview, Ease.gradeToQuality, h1]

/-- Witness for the good-grade scenario at a concrete card. -/
theorem good_grade_second_repetition_interval_six_witness :
    sampleCard.repetition = 1 ∧ sampleCard.interval = 1 ∧ sampleCard.easiness = 5 / 2 ∧
    ((Ease.computeReview 0 sampleCard .good).repetition = 2 ∧
      (Ease.computeReview 0 sampleCard .good).interval = 6) :=
  ⟨rfl, rfl, by norm_num [sampleCard],
    good_grade_second_repetition_interval_six 0 sampleCard rfl rfl (by norm_num [sampleCard])⟩

/-- C5: in the ladder policy, the intervals produced by consecutive passing
(ok) grades are monotonically non-decreasing from every starting repetition,
and never exceed the configured maximum interval in days. -/
theorem ladder_intervals_monotone_and_bounded :
    ∀ (maxIntervalDays : Int), 1 ≤ maxIntervalDays →
      ∀ (now : Time) (r k : Nat),
        Ladder.okIntervalAt maxIntervalDays now r k ≤
          Ladder.okIntervalAt maxIntervalDays now r (k + 1) ∧
        Ladder.okIntervalAt maxIntervalDays now r k ≤ maxIntervalDays := by
  intro maxD hmax now r k
  have hk : Ladder.okIntervalAt maxD now r k
      = Ladder.clampInterval maxD (Ladder.intervalFromRepetition (r + k + 1)) := by
    simp [Ladder.okIntervalAt, Ladder.gradeInterval, Ladder.repAfterOks_eq]
  have hk1 : Ladder.okIntervalAt maxD now r (k + 1)
      = Ladder.clampInterval maxD (Ladder.intervalFromRepetition (r + (k + 1) + 1)) := by
    simp [Ladder.okIntervalAt, Ladder.gradeInterval, Ladder.repAfterOks_eq]
  constructor
  · rw [hk, hk1]
    exact Ladder.clampInterval_mono maxD (Ladder.intervalFromRepetition_mono (by omega))
  · rw [hk]
    exact Ladder.clampInterval_le maxD hmax _

/-- Witness for the ladder monotonicity theorem at the default configured
maximum of 45 days. -/
theorem ladder_intervals_monotone_and_bounded_witness :
    (1 : Int) ≤ 45 ∧
    (Ladder.okIntervalAt 45 0 0 2 ≤ Ladder.okIntervalAt 45 0 0 3 ∧
      Ladder.okIntervalAt 45 0 0 2 ≤ 45) :=
  ⟨by decide, ladder_intervals_monotone_and_bounded 45 (by decide) 0 0 2⟩

/-- C2: a card stuck in awaiting_grade since before the 24-hour cutoff is,
after the scheduler's overdue pass, back in learning with no awaiting
timestamp and no pending-message fields. -/
theorem overdue_pass_returns_card_to_learning :
    ∀ (now : Time) (cards : List CardRecord) (c : CardRecord) (t : Time),
      c ∈ cards → c.status = .awaiting_grade → c.awaitingGradeSince = some t →
      t ≤ now - dayMs →
      autoGradeOverdueCard now c ∈ checkOverdueGrades now cards ∧
      (autoGradeOverdueCard now c).status = .learning ∧
      (autoGradeOverdueCard now c).awaitingGradeSince = none ∧
      (autoGradeOverdueCard now c).pendingChannelId = none ∧
      (autoGradeOverdueCard now c).pendingChannelMessageId = none := by
  intro now cards c t hc hst hsince hcut
  have hsel : isExpiredAwaiting (now - dayMs) c = true := by
    simp [isExpiredAwaiting, hst, hsince, hcut]
  refine ⟨?_, ?_, ?_, ?_, ?_⟩
  · have hmem := List.mem_map_of_mem
      (fun c => if isExpiredAwaiting (now - dayMs) c then autoGradeOverdueCard now c else c) hc
    simpa [checkOverdueGrades, hsel] using hmem
  all_goals simp [autoGradeOverdueCard, CardStore.saveReviewResult]

/-- Witness for the overdue-pass theorem at a concretely expired card. -/
theorem overdue_pass_returns_card_to_learning_witness :
    expiredCard ∈ [expiredCard] ∧ expiredCard.status = CardStatus.awaiting_grade ∧
    expiredCard.awaitingGradeSince = some 0 ∧ (0 : Time) ≤ 2 * dayMs - dayMs ∧
    (autoGradeOverdueCard (2 * dayMs) expiredCard ∈ checkOverdueGrades (2 * dayMs) [expiredCard] ∧
      (autoGradeOverdueCard (2 * dayMs) expiredCard).status = .learning ∧
      (autoGradeOverdueCard (2 * dayMs) expiredCard).awaitingGradeSince = none ∧
      (autoGradeOverdueCard (2 * dayMs) expiredCard).pendingChannelId = none ∧
      (autoGradeOverdueCard (2 * dayMs) expiredCard).pendingChannelMessageId = none) :=
  ⟨List.mem_singleton_self _, rfl, rfl, by decide,
    overdue_pass_returns_card_to_learning (2 * dayMs) [expiredCard] expiredCard 0
      (List.mem_singleton_self _) rfl rfl (by decide)⟩

theorem den_one_sub_int {q : ℚ} (h : (q * 100).den = 1) :
    ((q - 7 / 50) * 100).den = 1 := by
  have hq : (((q * 100).num : ℤ) : ℚ) = q * 100 :=
    (Rat.den_eq_one_iff _).mp h
  have hrw : (q - 7 / 50) * 100 = (((q * 100).num - 14 : ℤ) : ℚ) := by
    push_cast [hq]
    ring
  rw [hrw]
  exact Rat.den_intCast _

/-- C10: the overdue pass auto-grades a timed-out card with hard, a passing
quality-3 grade: the repetition increments rather than resetting, the easiness
drops by exactly 0.14 (floor-clamped at 1.3), and the next review lands the
computed interval (at least one day) in the future — the timeout is recorded
as a successful review. The easiness hypothesis states that the stored value
has at most two decimal places, which every value the store ever writes has. -/
theorem overdue_autograde_is_passing_hard :
    ∀ (now : Time) (c : CardRecord) (t : Time),
      c.status = .awaiting_grade → c.awaitingGradeSince = some t → t ≤ now - dayMs →
      (c.easiness * 100).den = 1 →
      checkOverdueGrades now [c] = [autoGradeOverdueCard now c] ∧
      (autoGradeOverdueCard now c).lastGrade = some 3 ∧
      (autoGradeOverdueCard now c).repetition = c.repetition + 1 ∧
      (autoGradeOverdueCard now c).easiness = max (13 / 10) (c.easiness - 7 / 50) ∧
      1 ≤ (autoGradeOverdueCard now c).interval ∧
      (autoGradeOverdueCard now c).nextReviewAt
        = some (now + (autoGradeOverdueCard now c).interval * dayMs) := by
  intro now c t hst hsince hcut hden
  have hsel : isExpiredAwaiting (now - dayMs) c = true := by
    simp [isExpiredAwaiting, hst, hsince, hcut]
  refine ⟨by simp [checkOverdueGrades, hsel], ?_, ?_, ?_, ?_, ?_⟩
  · simp [autoGradeOverdueCard, CardStore.saveReviewResult, Ease.computeReview,
      Ease.gradeToQuality]
  · simp [autoGradeOverdueCard, CardStore.saveReviewResult, Ease.computeReview,
      Ease.gradeToQuality]
  · simp only [autoGradeOverdueCard, CardStore.saveReviewResult, Ease.computeReview,
      Ease.gradeToQuality]
    norm_num [Ease.clampEasiness]
    rw [show c.easiness + -(7 / 50) = c.easiness - 7 / 50 by ring,
      toFixed2_eq_self (den_one_sub_int hden)]
  · simp only [autoGradeOverdueCard, CardStore.saveReviewResult, Ease.computeReview,
      Ease.gradeToQuality]
    norm_num
    split_ifs <;> omega
  · simp [autoGradeOverdueCard, CardStore.saveReviewResult, Ease.computeReview,
      Ease.gradeToQuality]

/-- Witness for the overdue auto-grade theorem at a concretely expired card. -/
theorem overdue_autograde_is_passing_hard_witness :
    expiredCard.status = CardStatus.awaiting_grade ∧
    expiredCard.awaitingGradeSince = some 0 ∧
    (0 : Time) ≤ 2 * dayMs - dayMs ∧
    (expiredCard.easiness * 100).den = 1 ∧
    (checkOverdueGrades (2 * dayMs) [expiredCard]
        = [autoGradeOverdueCard (2 * dayMs) expiredCard] ∧
      (autoGradeOverdueCard (2 * dayMs) expiredCard).lastGrade = some 3 ∧
      (autoGradeOverdueCard (2 * dayMs) expiredCard).repetition = expiredCard.repetition + 1 ∧
      (autoGradeOverdueCard (2 * dayMs) expiredCard).easiness
        = max (13 / 10) (expiredCard.easiness - 7 / 50) ∧
      1 ≤ (autoGradeOverdueCard (2 * dayMs) expiredCard).interval ∧
      (autoGradeOverdueCard (2 * dayMs) expiredCard).nextReviewAt
        = some (2 * dayMs + (autoGradeOverdueCard (2 * dayMs) expiredCard).interval * dayMs)) :=
  ⟨rfl, rfl, by decide, by norm_num [expiredCard, sampleCard],
    overdue_autograde_is_passing_hard (2 * dayMs) expiredCard 0 rfl rfl (by decide)
      (by norm_num [expiredCard, sampleCard])⟩

theorem copyOriginal_fields (env : TelegramEnv) (c : CardRecord) :
    (copyOriginal env c).1.pendingChannelMessageId = c.pendingChannelMessageId ∧
    (copyOriginal env c).1.pendingChannelId = c.pendingChannelId ∧
    (copyOriginal env c).1.status = c.status ∧
    (copyOriginal env c).1.id = c.id ∧
    (copyOriginal env c).1.sourceMessageIds = c.sourceMessageIds := by
  obtain ⟨cm, cms, ps, rs⟩ := env
  unfold copyOriginal
  dsimp only
  split
  · cases cms with
    | error e => simp
    | ok copies =>
      dsimp only
      cases copies.getLast? with
      | none => simp
      | some lastId =>
        dsimp only
        split
        · simp
        · cases ps <;> simp [CardStore.setBaseChannelMessage]
  · cases cm <;> simp [CardStore.setBaseChannelMessage]

theorem copyOriginal_events (env : TelegramEnv) (c : CardRecord) :
    ∀ ev ∈ (copyOriginal env c).2.1, ∃ pre m, ev = StoreEvent.setBase pre m := by
  obtain ⟨cm, cms, ps, rs⟩ := env
  unfold copyOriginal
  dsimp only
  split
  · cases cms with
    | error e => simp
    | ok copies =>
      dsimp only
      cases copies.getLast? with
      | none => simp
      | some lastId =>
        dsimp only
        split
        · simp
        · cases ps <;> simp
  · cases cm <;> simp

theorem copyOriginal_ok_base (env : TelegramEnv) (c : CardRecord) (mid : Int)
    (h : (copyOriginal env c).2.2 = .ok mid) :
    (copyOriginal env c).1.baseChannelMessageId = newCopyBase env c ∧
    (newCopyBase env c).isSome = true := by
  by_cases hlen : 1 < (uniqueSorted (c.sourceMessageIds.getD [])).length
  · rcases hcms : env.copyMessagesResult with e | copies
    · simp [copyOriginal, newCopyBase, hlen, hcms] at h
    · rcases hlast : copies.getLast? with _ | lastId
      · simp [copyOriginal, newCopyBase, hlen, hcms, hlast] at h
      · by_cases hz : lastId = 0
        · simp [copyOriginal, newCopyBase, hlen, hcms, hlast, hz] at h
        · rcases hps : env.promptSendResult with e | promptId
          · simp [copyOriginal, hlen, hcms, hlast, hz, hps] at h
          · simp [copyOriginal, newCopyBase, hlen, hcms, hlast, hz, hps,
              CardStore.setBaseChannelMessage]
  · rcases hcm : env.copyMessageResult with e | mid2
    · simp [copyOriginal, newCopyBase, hlen, hcm] at h
    · simp [copyOriginal, newCopyBase, hlen, hcm, CardStore.setBaseChannelMessage]

theorem newCopyBase_congr (env : TelegramEnv) (c c2 : CardRecord)
    (h : c.sourceMessageIds = c2.sourceMessageIds) :
    newCopyBase env c = newCopyBase env c2 := by
  unfold newCopyBase
  rw [h]

theorem cleanup_pending_none (now : Time) (c : CardRecord) (h : pendingLinked c) :
    (dispatchCleanup now c).pendingChannelMessageId = none := by
  unfold dispatchCleanup
  rcases hm : c.pendingChannelMessageId with _ | m
  · split <;> simp [CardStore.clearAwaitingGrade, hm]
  · obtain ⟨h0, ch, hch, hch2⟩ := h m hm
    have h1 : jsTruthyStr c.pendingChannelId = true := by simp [jsTruthyStr, hch, hch2]
    have h2 : jsTruthyNum c.pendingChannelMessageId = true := by simp [jsTruthyNum, hm, h0]
    simp [h1, h2, CardStore.clearAwaitingGrade, jsTruthyNum, h0]

theorem dispatchBody_card_cases (env : TelegramEnv) (now : Time) (c : CardRecord) :
    (dispatchBody env now c).1 = dispatchCleanup now c ∨
    (dispatchBody env now c).1 = (copyOriginal env (dispatchCleanup now c)).1 ∨
    (dispatchBody env now c).1
      = (copyOriginal env
          (CardStore.setBaseChannelMessage none (dispatchCleanup now c))).1 := by
  unfold dispatchBody
  dsimp only
  by_cases hbase : jsTruthyNum (dispatchCleanup now c).baseChannelMessageId = true
  · simp only [hbase, Bool.not_true, Bool.false_eq_true, if_false]
    rcases hrem : env.reminderSendResult with e | reminder
    · by_cases hmiss : isMissingReplyTarget e = true
      · simp [hrem, hmiss]
      · simp [hrem, hmiss]
    · by_cases hreply : reminder.hasReplyToMessage = true
      · simp [hrem, hreply]
      · simp [hrem, hreply]
  · simp [hbase]

theorem dispatchBody_events (env : TelegramEnv) (now : Time) (c : CardRecord) :
    ∀ ev ∈ (dispatchBody env now c).2.1,
      (∃ pre, ev = StoreEvent.clearAwaiting pre) ∨ (∃ pre m, ev = StoreEvent.setBase pre m) := by
  unfold dispatchBody
  dsimp only
  intro ev hev
  rw [List.mem_append] at hev
  rcases hev with hev | hev
  · left
    rcases hcl : (jsTruthyStr c.pendingChannelId && jsTruthyNum c.pendingChannelMessageId) with _ | _
    · simp [hcl] at hev
    · simp [hcl] at hev
      exact ⟨c, hev⟩
  · by_cases hbase : jsTruthyNum (dispatchCleanup now c).baseChannelMessageId = true
    · simp only [hbase, Bool.not_true, Bool.false_eq_true, if_false] at hev
      rcases hrem : env.reminderSendResult with e | reminder
      · rw [hrem] at hev
        by_cases hmiss : isMissingReplyTarget e = true
        · simp only [hmiss, if_true] at hev
          rcases List.mem_cons.mp hev with hev | hev
          · right
            exact ⟨_, _, hev⟩
          · right
            exact copyOriginal_events env _ ev hev
        · simp [hmiss] at hev
      · rw [hrem] at hev
        by_cases hreply : reminder.hasReplyToMessage = true
        · simp [hreply] at hev
        · simp only [hreply] at hev
          right
          exact copyOriginal_events env _ ev (by simpa using hev)
    · simp only [hbase] at hev
      right
      exact copyOriginal_events env _ ev (by simpa using hev)

theorem dispatchBody_pending_none (env : TelegramEnv) (now : Time) (c : CardRecord)
    (h : pendingLinked c) :
    (dispatchBody env now c).1.pendingChannelMessageId = none := by
  have hc1 := cleanup_pending_none now c h
  rcases dispatchBody_card_cases env now c with hc | hc | hc <;> rw [hc]
  · exact hc1
  · rw [(copyOriginal_fields env _).1]
    exact hc1
  · rw [(copyOriginal_fields env _).1]
    simpa [CardStore.setBaseChannelMessage] using hc1

/-- C1: on every dispatch path (a scheduled tick goes through
sendCardToChannel, a manual trigger through triggerImmediate), the store's
markAwaitingGrade only ever runs against a card whose pendingChannelMessageId
is already null: the pre-dispatch cleanup (or the trigger's own clear) has
removed any stale pending delivery first. The hypothesis is the store
invariant that a recorded pending message id always comes with its channel
id. -/
theorem no_dispatch_over_stale_pending :
    ∀ (env : TelegramEnv) (now : Time) (user : Option UserRecord)
      (reason : NotificationReason) (card : CardRecord), pendingLinked card →
      (∀ pre input,
        StoreEvent.markAwaiting pre input ∈ (sendCardToChannel env now user reason card).2.1 →
        pre.pendingChannelMessageId = none) ∧
      (∀ pre input,
        StoreEvent.markAwaiting pre input ∈ (triggerImmediate env now user card).2.1 →
        pre.pendingChannelMessageId = none) := by
  have hsend : ∀ (env : TelegramEnv) (now : Time) (user : Option UserRecord)
      (reason : NotificationReason) (card : CardRecord), pendingLinked card →
      ∀ pre input,
        StoreEvent.markAwaiting pre input ∈ (sendCardToChannel env now user reason card).2.1 →
        pre.pendingChannelMessageId = none := by
    intro env now user reason card h pre input hmem
    unfold sendCardToChannel at hmem
    dsimp only at hmem
    rcases hout : (dispatchBody env now card).2.2 with e | mid
    · rw [hout] at hmem
      dsimp only at hmem
      rw [List.mem_append] at hmem
      rcases hmem with hmem | hmem
      · rcases dispatchBody_events env now card _ hmem with ⟨p, hp⟩ | ⟨p, m, hp⟩ <;>
          simp at hp
      · simp at hmem
    · rw [hout] at hmem
      dsimp only at hmem
      rw [List.mem_append] at hmem
      rcases hmem with hmem | hmem
      · rcases dispatchBody_events env now card _ hmem with ⟨p, hp⟩ | ⟨p, m, hp⟩ <;>
          simp at hp
      · rcases List.mem_cons.mp hmem with hev | hev
        · simp only [StoreEvent.markAwaiting.injEq] at hev
          rw [hev.1]
          exact dispatchBody_pending_none env now card h
        · simp at hev
  intro env now user reason card h
  refine ⟨hsend env now user reason card h, ?_⟩
  intro pre input hmem
  unfold triggerImmediate at hmem
  by_cases hp : card.status = CardStatus.pending
  · simp [hp] at hmem
  · rw [if_neg hp] at hmem
    by_cases ha : card.status = CardStatus.awaiting_grade
    · rw [if_pos ha] at hmem
      dsimp only at hmem
      rcases List.mem_cons.mp hmem with hev | hev
      · simp at hev
      · refine hsend env now user .manual_now (CardStore.clearAwaitingGrade now card) ?_
          pre input hev
        intro m hm
        simp [CardStore.clearAwaitingGrade] at hm
    · rw [if_neg ha] at hmem
      exact hsend env now user .manual_now card h pre input hmem

/-- C6: whenever dispatch ends in an uncaught delivery error (anything the
missing-reply-target fallback did not absorb), the card is rescheduled one
hour out and sits in learning — never left awaiting_grade with no delivered
message. -/
theorem delivery_failure_reschedules_card :
    ∀ (env : TelegramEnv) (now : Time) (user : Option UserRecord)
      (reason : NotificationReason) (card : CardRecord) (e : String),
      (sendCardToChannel env now user reason card).2.2 = .error e →
      (sendCardToChannel env now user reason card).1.status = .learning ∧
      (sendCardToChannel env now user reason card).1.nextReviewAt = some (now + hourMs) ∧
      (sendCardToChannel env now user reason card).1.awaitingGradeSince = none ∧
      (sendCardToChannel env now user reason card).1.pendingChannelMessageId = none ∧
      (sendCardToChannel env now user reason card).1.pendingChannelId = none := by
  intro env now user reason card e h
  unfold sendCardToChannel at h ⊢
  dsimp only at h ⊢
  rcases hout : (dispatchBody env now card).2.2 with e2 | mid
  · simp [CardStore.rescheduleCard]
  · rw [hout] at h
    exact Except.noConfusion h

theorem dispatchCleanup_fields (now : Time) (c : CardRecord) :
    (dispatchCleanup now c).baseChannelMessageId = c.baseChannelMessageId ∧
    (dispatchCleanup now c).sourceMessageIds = c.sourceMessageIds := by
  unfold dispatchCleanup
  split <;> simp [CardStore.clearAwaitingGrade]

theorem dispatchBody_missing_anchor (env : TelegramEnv) (now : Time) (card : CardRecord)
    (b : Int) (e : String)
    (hb : card.baseChannelMessageId = some b) (hb0 : b ≠ 0)
    (hr : env.reminderSendResult = .error e) (hm : isMissingReplyTarget e = true) :
    (dispatchBody env now card).1
      = (copyOriginal env (CardStore.setBaseChannelMessage none (dispatchCleanup now card))).1 ∧
    (dispatchBody env now card).2.2
      = (copyOriginal env
          (CardStore.setBaseChannelMessage none (dispatchCleanup now card))).2.2 := by
  have hbase : (dispatchCleanup now card).baseChannelMessageId = some b := by
    rw [(dispatchCleanup_fields now card).1, hb]
  have htr : jsTruthyNum (dispatchCleanup now card).baseChannelMessageId = true := by
    simp [jsTruthyNum, hbase, hb0]
  unfold dispatchBody
  dsimp only
  simp only [htr, Bool.not_true, Bool.false_eq_true, if_false, hr, hm, if_true]
  refine ⟨?_, ?_⟩ <;> first | rfl | trivial

/-- C7: when a card's recorded reply anchor no longer exists (the reminder
send fails with the reply-target-missing signal) and delivery nevertheless
completes, the dispatcher has fallen back to a full re-copy: the delivered
message becomes the pending grading message, the card ends in awaiting_grade,
and the new copy's message id is recorded as the new baseChannelMessageId. -/
theorem missing_anchor_fallback_recopies :
    ∀ (env : TelegramEnv) (now : Time) (user : Option UserRecord)
      (reason : NotificationReason) (card : CardRecord) (b : Int) (e : String) (mid : Int),
      card.baseChannelMessageId = some b → b ≠ 0 →
      env.reminderSendResult = .error e → isMissingReplyTarget e = true →
      (sendCardToChannel env now user reason card).2.2 = .ok mid →
      (sendCardToChannel env now user reason card).1.status = .awaiting_grade ∧
      (sendCardToChannel env now user reason card).1.pendingChannelMessageId = some mid ∧
      (sendCardToChannel env now user reason card).1.baseChannelMessageId
        = newCopyBase env card ∧
      (newCopyBase env card).isSome = true := by
  intro env now user reason card b e mid hb hb0 hr hm hok
  obtain ⟨hb1, hb3⟩ := dispatchBody_missing_anchor env now card b e hb hb0 hr hm
  have hbody_ok : (dispatchBody env now card).2.2 = .ok mid := by
    rcases hcase : (dispatchBody env now card).2.2 with e2 | mid2
    · unfold sendCardToChannel at hok
      dsimp only at hok
      rw [hcase] at hok
      exact Except.noConfusion hok
    · unfold sendCardToChannel at hok
      dsimp only at hok
      rw [hcase] at hok
      dsimp only at hok
      exact hok
  have hcopy_ok : (copyOriginal env
      (CardStore.setBaseChannelMessage none (dispatchCleanup now card))).2.2 = .ok mid := by
    rw [← hb3]
    exact hbody_ok
  obtain ⟨hcb, hcs⟩ := copyOriginal_ok_base env _ mid hcopy_ok
  have hsrc : (CardStore.setBaseChannelMessage none (dispatchCleanup now card)).sourceMessageIds
      = card.sourceMessageIds := by
    simp [CardStore.setBaseChannelMessage, (dispatchCleanup_fields now card).2]
  have hnb : newCopyBase env (CardStore.setBaseChannelMessage none (dispatchCleanup now card))
      = newCopyBase env card := newCopyBase_congr env _ _ hsrc
  have hfinal : (sendCardToChannel env now user reason card).1
      = CardStore.recordNotification
          { cardId := (CardStore.markAwaitingGrade
              { cardId := (dispatchBody env now card).1.id
                channelId := jsOrStr (user.bind fun u => u.notificationChatId) card.userId
                channelMessageId := mid
                pendingSince := now } (dispatchBody env now card).1).id
            messageId := mid
            reason := reason
            sentAt := now }
          (CardStore.markAwaitingGrade
            { cardId := (dispatchBody env now card).1.id
              channelId := jsOrStr (user.bind fun u => u.notificationChatId) card.userId
              channelMessageId := mid
              pendingSince := now } (dispatchBody env now card).1) := by
    unfold sendCardToChannel
    dsimp only
    rw [hbody_ok]
  rw [hfinal]
  refine ⟨by simp [CardStore.recordNotification, CardStore.markAwaitingGrade],
    by simp [CardStore.recordNotification, CardStore.markAwaitingGrade], ?_, ?_⟩
  · simp only [CardStore.recordNotification, CardStore.markAwaitingGrade]
    rw [hb1, hcb, hnb]
  · rw [← hnb]
    exact hcs

/-- C8: domain errors are rejected with no state mutation: triggerImmediate on
a pending card raises its error and returns the card untouched with no store
events, and a grade applied to a card that is not awaiting a grade is turned
away by the findAwaitingCard guard with no review saved and the card
unchanged. -/
theorem domain_errors_rejected_without_mutation :
    (∀ (env : TelegramEnv) (now : Time) (user : Option UserRecord) (card : CardRecord),
        card.status = .pending →
        triggerImmediate env now user card
          = (card, [], .error "Карточка ещё не активирована")) ∧
    (∀ (now : Time) (card : CardRecord) (grade : Ease.GradeKey),
        card.status ≠ .awaiting_grade →
        handleGradeAction now card grade = (card, none)) := by
  constructor
  · intro env now user card h
    simp [triggerImmediate, h]
  · intro now card grade h
    simp [handleGradeAction, h]

/-- Witness for the domain-error theorem at a pending card and a learning
card. -/
theorem domain_errors_rejected_without_mutation_witness :
    ({ sampleCard with status := .pending } : CardRecord).status = CardStatus.pending ∧
    (triggerImmediate
        { copyMessageResult := .ok 5, copyMessagesResult := .ok [5],
          promptSendResult := .ok 6, reminderSendResult := .error "x" }
        0 none { sampleCard with status := .pending }
      = ({ sampleCard with status := .pending }, [], .error "Карточка ещё не активирована")) ∧
    sampleCard.status ≠ CardStatus.awaiting_grade ∧
    handleGradeAction 0 sampleCard .good = (sampleCard, none) :=
  ⟨rfl,
    domain_errors_rejected_without_mutation.1
      { copyMessageResult := .ok 5, copyMessagesResult := .ok [5],
        promptSendResult := .ok 6, reminderSendResult := .error "x" }
      0 none { sampleCard with status := .pending } rfl,
    by decide,
    domain_errors_rejected_without_mutation.2 0 sampleCard .good (by decide)⟩

/-- C9 counterexample: the second clearAwaitingGrade is not a strict no-op on
the observable card row — it refreshes updatedAt, so at distinct call instants
the state after the second call differs from the state after the first. -/
theorem clear_awaiting_twice_changes_updatedAt :
    ¬ (CardStore.clearAwaitingGrade 1 (CardStore.clearAwaitingGrade 0 expiredCard)
        = CardStore.clearAwaitingGrade 0 expiredCard) := by
  intro h
  have h2 := congrArg CardRecord.updatedAt h
  simp [CardStore.clearAwaitingGrade] at h2

/-- C9 amended: calling clearAwaitingGrade twice in succession raises no error
and writes no audit or notification field; the second call leaves every field
of the card exactly as the first call left it except updatedAt, which it
refreshes to its own timestamp — so with equal timestamps the second call is
literally the identity. -/
theorem clear_awaiting_idempotent_up_to_updatedAt :
    ∀ (t1 t2 : Time) (c : CardRecord),
      CardStore.clearAwaitingGrade t2 (CardStore.clearAwaitingGrade t1 c)
        = { CardStore.clearAwaitingGrade t1 c with updatedAt := t2 } ∧
      (CardStore.clearAwaitingGrade t2 (CardStore.clearAwaitingGrade t1 c)).lastNotificationAt
        = c.lastNotificationAt ∧
      (CardStore.clearAwaitingGrade t2
          (CardStore.clearAwaitingGrade t1 c)).lastNotificationReason
        = c.lastNotificationReason ∧
      (CardStore.clearAwaitingGrade t2
          (CardStore.clearAwaitingGrade t1 c)).lastNotificationMessageId
        = c.lastNotificationMessageId ∧
      CardStore.clearAwaitingGrade t1 (CardStore.clearAwaitingGrade t1 c)
        = CardStore.clearAwaitingGrade t1 c := by
  intro t1 t2 c
  exact ⟨rfl, rfl, rfl, rfl, rfl⟩

/-- Witness for the stale-pending theorem at a card with a recorded pending
delivery and a successful dispatch environment. -/
theorem no_dispatch_over_stale_pending_witness :
    pendingLinked expiredCard ∧
    ((∀ pre input,
        StoreEvent.markAwaiting pre input
          ∈ (sendCardToChannel okEnv 0 none .scheduled expiredCard).2.1 →
        pre.pendingChannelMessageId = none) ∧
      (∀ pre input,
        StoreEvent.markAwaiting pre input ∈ (triggerImmediate okEnv 0 none expiredCard).2.1 →
        pre.pendingChannelMessageId = none)) := by
  have hp : pendingLinked expiredCard := by
    intro m hm
    have h77 : (77 : Int) = m := by
      simpa [expiredCard, sampleCard] using hm
    subst h77
    exact ⟨by decide, "500", rfl, by decide⟩
  exact ⟨hp, no_dispatch_over_stale_pending okEnv 0 none .scheduled expiredCard hp⟩

/-- Witness for the delivery-failure theorem in an environment whose copy call
fails outright. -/
theorem delivery_failure_reschedules_card_witness :
    (sendCardToChannel failEnv 0 none .scheduled sampleCard).2.2 = .error "network down" ∧
    ((sendCardToChannel failEnv 0 none .scheduled sampleCard).1.status = .learning ∧
      (sendCardToChannel failEnv 0 none .scheduled sampleCard).1.nextReviewAt
        = some (0 + hourMs) ∧
      (sendCardToChannel failEnv 0 none .scheduled sampleCard).1.awaitingGradeSince = none ∧
      (sendCardToChannel failEnv 0 none .scheduled sampleCard).1.pendingChannelMessageId
        = none ∧
      (sendCardToChannel failEnv 0 none .scheduled sampleCard).1.pendingChannelId = none) :=
  ⟨rfl, delivery_failure_reschedules_card failEnv 0 none .scheduled sampleCard
    "network down" rfl⟩

/-- Witness for the missing-anchor fallback theorem at a concretely anchored
card. -/
theorem missing_anchor_fallback_recopies_witness :
    anchoredCard.baseChannelMessageId = some 300 ∧ (300 : Int) ≠ 0 ∧
    okEnv.reminderSendResult = .error "Bad Request: reply message not found" ∧
    isMissingReplyTarget "Bad Request: reply message not found" = true ∧
    (sendCardToChannel okEnv 0 none .scheduled anchoredCard).2.2 = .ok 901 ∧
    ((sendCardToChannel okEnv 0 none .scheduled anchoredCard).1.status = .awaiting_grade ∧
      (sendCardToChannel okEnv 0 none .scheduled anchoredCard).1.pendingChannelMessageId
        = some 901 ∧
      (sendCardToChannel okEnv 0 none .scheduled anchoredCard).1.baseChannelMessageId
        = newCopyBase okEnv anchoredCard ∧
      (newCopyBase okEnv anchoredCard).isSome = true) :=
  ⟨rfl, by decide, rfl, by decide, rfl,
    missing_anchor_fallback_recopies okEnv 0 none .scheduled anchoredCard 300
      "Bad Request: reply message not found" 901 rfl (by decide) rfl (by decide) rfl⟩

